import Mathlib

/-!
Verification development for the ENSAM cloud execution engine.

This file shallowly embeds the parts of the Python sources that the
specification's claims are about:

* `src/src/services/script_analyzer.py` — the auto-allocation analyzer
  (`ScriptAnalyzer.analyze`, `_detect_libraries`, `_detect_gpu_usage`,
  `_detect_memory_usage`, `_detect_compute_patterns`, `_determine_profile`);
* `src/src/services/executor.py` — `DockerExecutor.get_resource_limits`,
  the effective-timeout computation in `execute_job`, the status decision of
  `execute_job` after `_wait_for_container`, and the cancellation path;
* `src/src/api/routes/jobs.py` — the allocation decision of `submit_job`,
  the custom-timeout handling, and the `cancel_job` route;
* `src/src/api/routes/websocket.py` — the event sequence emitted to a
  subscriber of an already-finished job (`websocket_job_logs`,
  `send_existing_logs`);
* `src/src/models.py` — `JobStatus` values and the `Job.is_finished`
  predicate.

Python floats in the analyzer and the resource limits are modelled as exact
rationals (`ℚ`); the numeric literals involved (0.9, 0.5, 0.1, …) are used by
the code only in comparisons whose outcome is unaffected by double rounding at
the 1e-16 scale, so the rational model is faithful for every claim below.
-/

namespace EnsamCloud

/-! ## Character classes and small string utilities

`isPyWs` models Python's `str.strip()` / regex `\s` whitespace on the ASCII
range (space, tab, newline, carriage return, form feed, vertical tab).
`isWordChar` models regex `\w`, `isDigitChar` models `\d`.
-/

def isPyWs (c : Char) : Bool :=
  c = ' ' || c = '\t' || c = '\n' || c = '\r' || c = '\x0c' || c = '\x0b'

def isWordChar (c : Char) : Bool :=
  c.isAlpha || c.isDigit || c = '_'

def isDigitChar (c : Char) : Bool := c.isDigit

/-- Python truthiness test `not s or not s.strip()`: the string is empty or
consists of whitespace only. -/
def isBlankStr (s : String) : Bool := s.data.all isPyWs

/-- Python `str.rstrip()`: drop trailing whitespace. -/
def pyRstrip (s : String) : String :=
  String.mk (s.data.reverse.dropWhile isPyWs).reverse

/-- Substring test `needle in hay` (case-sensitive), as Python's `in`. -/
def containsSub (needle hay : List Char) : Bool :=
  match hay with
  | [] => needle.isEmpty
  | _ :: rest => needle.isPrefixOf hay || containsSub needle rest

/-! ## JSON values and the custom-config payload parser

`DockerExecutor.get_resource_limits` (executor.py lines 196-215) extracts a
payload with `re.search(r'CUSTOM_CONFIG:({.*?})', job.analysis_reasoning)` and
feeds it to `json.loads`.  We model JSON values by the one distinction the
override code observes: numeric values (Python `int`/`float`/`bool`, all of
which support `min`/`max` against an int) versus everything else (strings,
`null`, arrays — for which `min(value, bound)` raises an uncaught `TypeError`).
An object nested as a value cannot survive the non-greedy `{.*?}` capture
(the capture stops at the first `}`, leaving the outer object unclosed, so
`json.loads` fails), hence the parser rejects `{` in value position, which is
extensionally the same verdict. -/

inductive JVal where
  | num (q : ℚ)
  | other
deriving DecidableEq, Repr

abbrev ConfigDict := List (String × JVal)

/-- Dictionary lookup with the "last duplicate key wins" semantics of
`json.loads` building a Python `dict`. -/
def dictGet (k : String) : ConfigDict → Option JVal
  | [] => none
  | (k', v) :: rest =>
    match dictGet k rest with
    | some v' => some v'
    | none => if k' = k then some v else none

/-- JSON insignificant whitespace (RFC 8259: space, tab, LF, CR). -/
def isJsonWs (c : Char) : Bool :=
  c = ' ' || c = '\t' || c = '\n' || c = '\r'

def skipWs (cs : List Char) : List Char := cs.dropWhile (fun c => isJsonWs c)

def hexVal (c : Char) : Option Nat :=
  if c.isDigit then some (c.toNat - '0'.toNat)
  else if 'a' ≤ c ∧ c ≤ 'f' then some (c.toNat - 'a'.toNat + 10)
  else if 'A' ≤ c ∧ c ≤ 'F' then some (c.toNat - 'A'.toNat + 10)
  else none

/-- Parse the body of a JSON string literal after the opening quote, resolving
escape sequences; returns the decoded characters and the remainder after the
closing quote. -/
def parseStrBody : List Char → Option (List Char × List Char)
  | [] => none
  | '"' :: rest => some ([], rest)
  | '\\' :: e :: rest =>
    match e with
    | '"' => (parseStrBody rest).map (fun (s, r) => ('"' :: s, r))
    | '\\' => (parseStrBody rest).map (fun (s, r) => ('\\' :: s, r))
    | '/' => (parseStrBody rest).map (fun (s, r) => ('/' :: s, r))
    | 'b' => (parseStrBody rest).map (fun (s, r) => ('\x08' :: s, r))
    | 'f' => (parseStrBody rest).map (fun (s, r) => ('\x0c' :: s, r))
    | 'n' => (parseStrBody rest).map (fun (s, r) => ('\n' :: s, r))
    | 'r' => (parseStrBody rest).map (fun (s, r) => ('\r' :: s, r))
    | 't' => (parseStrBody rest).map (fun (s, r) => ('\t' :: s, r))
    | 'u' =>
      match rest with
      | h1 :: h2 :: h3 :: h4 :: rest' =>
        match hexVal h1, hexVal h2, hexVal h3, hexVal h4 with
        | some a, some b, some c, some d =>
          (parseStrBody rest').map
            (fun (s, r) => (Char.ofNat (((a * 16 + b) * 16 + c) * 16 + d) :: s, r))
        | _, _, _, _ => none
      | _ => none
    | _ => none
  | c :: rest =>
    if c.toNat < 0x20 then none
    else (parseStrBody rest).map (fun (s, r) => (c :: s, r))

/-- Digits of a JSON number folded into a natural. -/
def digitsToNat (ds : List Char) : Nat :=
  ds.foldl (fun acc c => acc * 10 + (c.toNat - '0'.toNat)) 0

/-- Parse a JSON number (int part with no leading zero, optional fraction,
optional exponent) into an exact rational. -/
def parseNumber (cs : List Char) : Option (ℚ × List Char) :=
  let (negSign, cs1) :=
    match cs with
    | '-' :: rest => (true, rest)
    | _ => (false, cs)
  let intDigits := cs1.takeWhile isDigitChar
  let cs2 := cs1.drop intDigits.length
  if intDigits.isEmpty then none
  else if 2 ≤ intDigits.length ∧ intDigits.headD '0' = '0' then none
  else
    let (fracDigits, cs3) :=
      match cs2 with
      | '.' :: rest =>
        (rest.takeWhile isDigitChar, rest.drop (rest.takeWhile isDigitChar).length)
      | _ => ([], cs2)
    if cs2.headD ' ' = '.' ∧ fracDigits.isEmpty then none
    else
      let parseExp : Option (Int × List Char) :=
        match cs3 with
        | 'e' :: rest | 'E' :: rest =>
          let (eneg, rest1) :=
            match rest with
            | '-' :: r => (true, r)
            | '+' :: r => (false, r)
            | _ => (false, rest)
          let eDigits := rest1.takeWhile isDigitChar
          if eDigits.isEmpty then none
          else
            let e : Int := digitsToNat eDigits
            some (if eneg then -e else e, rest1.drop eDigits.length)
        | _ => some (0, cs3)
      match parseExp with
      | none => none
      | some (e, cs4) =>
        -- For a plain integer literal the general formula below reduces to the
        -- integer itself; the explicit branch keeps the value kernel-evaluable.
        let value : ℚ :=
          if fracDigits.isEmpty ∧ e = 0 then (digitsToNat intDigits : ℚ)
          else
            ((digitsToNat intDigits : ℚ) +
              (digitsToNat fracDigits : ℚ) / (10 : ℚ) ^ fracDigits.length) * (10 : ℚ) ^ e
        some (if negSign then -value else value, cs4)

/-- Parse a JSON value in the modelled universe (see `JVal`).  `fuel` bounds
the recursion through nested arrays; callers pass the input length plus one,
which is sufficient because each recursive call consumes at least one
character. -/
def parseValue : Nat → List Char → Option (JVal × List Char)
  | 0, _ => none
  | _ + 1, [] => none
  | fuel + 1, cs@(c :: rest) =>
    if c = '"' then (parseStrBody rest).map (fun (_, r) => (JVal.other, r))
    else if c = 't' then
      if "true".data.isPrefixOf cs then some (JVal.num 1, cs.drop 4) else none
    else if c = 'f' then
      if "false".data.isPrefixOf cs then some (JVal.num 0, cs.drop 5) else none
    else if c = 'n' then
      if "null".data.isPrefixOf cs then some (JVal.other, cs.drop 4) else none
    else if c = '[' then
      match skipWs rest with
      | ']' :: r => some (JVal.other, r)
      | body => parseArrayTail fuel body
    else if c = '-' ∨ isDigitChar c then
      (parseNumber cs).map (fun (q, r) => (JVal.num q, r))
    else none
where
  /-- Elements of an array after `[` (first element pending). -/
  parseArrayTail : Nat → List Char → Option (JVal × List Char)
    | 0, _ => none
    | fuel + 1, cs =>
      match parseValue fuel cs with
      | none => none
      | some (_, r) =>
        match skipWs r with
        | ',' :: r' => parseArrayTail fuel (skipWs r')
        | ']' :: r' => some (JVal.other, r')
        | _ => none

/-- Members of a JSON object after `{` (first key pending). -/
def parseMembersTail : Nat → List Char → Option (ConfigDict × List Char)
  | 0, _ => none
  | fuel + 1, cs =>
    match cs with
    | '"' :: rest =>
      match parseStrBody rest with
      | none => none
      | some (key, r1) =>
        match skipWs r1 with
        | ':' :: r2 =>
          match parseValue (r2.length + 1) (skipWs r2) with
          | none => none
          | some (v, r3) =>
            match skipWs r3 with
            | ',' :: r4 =>
              (parseMembersTail fuel (skipWs r4)).map
                (fun (ms, r) => ((String.mk key, v) :: ms, r))
            | '}' :: r4 => some ([(String.mk key, v)], r4)
            | _ => none
        | _ => none
    | _ => none

/-- `json.loads` on the captured payload, in the modelled universe: accepts a
flat object (values: numbers, booleans as 0/1, strings/null/arrays as
`JVal.other`); anything else — including trailing garbage — is a decode
error (`none`). -/
def jsonParse (s : String) : Option ConfigDict :=
  match skipWs s.data with
  | '{' :: rest =>
    match skipWs rest with
    | '}' :: r =>
      if (skipWs r).isEmpty then some [] else none
    | body =>
      match parseMembersTail (body.length + 1) body with
      | some (ms, r) => if (skipWs r).isEmpty then some ms else none
      | none => none
  | _ => none

/-! ## CUSTOM_CONFIG extraction

`re.search(r'CUSTOM_CONFIG:({.*?})', reasoning)`: find the first occurrence of
the literal marker followed by `{`, capture non-greedily up to the first `}`;
`.` does not match a newline, so a newline before the closing brace kills the
match at that position and the search continues at later positions. -/

def ccMarker : List Char := "CUSTOM_CONFIG:".data

/-- Characters of the brace body up to (excluding) the first `}`; fails if a
newline or the end of input comes first. -/
def braceBody : List Char → Option (List Char)
  | [] => none
  | c :: rest =>
    if c = '}' then some []
    else if c = '\n' then none
    else (braceBody rest).map (c :: ·)

/-- The captured group `({.*?})` of the first matching position, braces
included. -/
def findCustomConfig : List Char → Option String
  | [] => none
  | cs@(_ :: rest) =>
    (if ccMarker.isPrefixOf cs then
      match cs.drop ccMarker.length with
      | '{' :: bs =>
        match braceBody bs with
        | some body => some (String.mk ('{' :: (body ++ ['}'])))
        | none => none
      | _ => none
    else none).elim (findCustomConfig rest) some

/-! ## Resource profiles and limits

`settings.RESOURCE_PROFILES` (core/config.py lines 46-51) and
`DockerExecutor.get_resource_limits` (executor.py lines 188-215).
-/

structure Limits where
  cpu_shares : ℚ
  memory_mb : ℚ
  timeout : ℚ
  gpu : Bool
deriving DecidableEq, Repr

def smallLimits : Limits := ⟨512, 512, 60, false⟩
def mediumLimits : Limits := ⟨1024, 2048, 300, false⟩
def largeLimits : Limits := ⟨2048, 4096, 900, false⟩
def gpuLimits : Limits := ⟨2048, 6144, 1800, true⟩

/-- `profiles[profile]` with the `if profile not in profiles: profile =
"medium"` fallback. -/
def resolveProfile (p : String) : Limits :=
  if p = "small" then smallLimits
  else if p = "medium" then mediumLimits
  else if p = "large" then largeLimits
  else if p = "gpu" then gpuLimits
  else mediumLimits

/-- The override block of `get_resource_limits` (executor.py lines 204-211):
each recognized key, when present with a numeric value, replaces the limit
with the clamped override; a non-numeric value raises an uncaught `TypeError`
at the `min` call, modelled as `none`.  The three `if` statements run in
sequence (`applyMemoryOverride`, then `applyCpuOverride`, then
`applyTimeoutOverride`). -/
def applyMemoryOverride (limits : Limits) (cfg : ConfigDict) : Option Limits :=
  match dictGet "memory_mb" cfg with
  | none => some limits
  | some (JVal.num v) => some { limits with memory_mb := max 256 (min v 8192) }
  | some JVal.other => none

def applyCpuOverride (limits : Limits) (cfg : ConfigDict) : Option Limits :=
  match dictGet "cpu_shares" cfg with
  | none => some limits
  | some (JVal.num v) => some { limits with cpu_shares := max 256 (min v 4096) }
  | some JVal.other => none

def applyTimeoutOverride (limits : Limits) (cfg : ConfigDict) : Option Limits :=
  match dictGet "timeout" cfg with
  | none => some limits
  | some (JVal.num v) => some { limits with timeout := max 10 (min v 3600) }
  | some JVal.other => none

def applyCustomOverrides (limits : Limits) (cfg : ConfigDict) : Option Limits :=
  match applyMemoryOverride limits cfg with
  | none => none
  | some l1 =>
    match applyCpuOverride l1 cfg with
    | none => none
    | some l2 => applyTimeoutOverride l2 cfg

/-- `DockerExecutor.get_resource_limits(profile, job)` (executor.py lines
188-215).  `reasoning` is `job.analysis_reasoning` (`none` for a missing
job or reasoning).  A `json.JSONDecodeError` is caught and leaves the profile
defaults unchanged; a `TypeError` from a non-numeric override propagates
(`none`). -/
def get_resource_limits (profile : String) (reasoning : Option String) : Option Limits :=
  match reasoning with
  | none => some (resolveProfile profile)
  | some r =>
    match findCustomConfig r.data with
    | none => some (resolveProfile profile)
    | some payload =>
      match jsonParse payload with
      | none => some (resolveProfile profile)
      | some cfg => applyCustomOverrides (resolveProfile profile) cfg

/-! ## A small regex engine for the analyzer's pattern tables

Every pattern in `COMPUTE_INTENSIVE_PATTERNS` and `GPU_USAGE_PATTERNS`
(script_analyzer.py lines 81-115) is built from literals, the classes `\s`,
`\w`, `\d`, `['"]`, the quantifiers `*`, `+`, `{4,}` and `.*`; all are
searched with `re.IGNORECASE`.  We compile each into a list of elements and
run a backtracking matcher.  Literals are stored lowercased; input characters
are lowercased at comparison time (IGNORECASE). -/

inductive CClass where
  | ws       -- `\s`
  | word     -- `\w`
  | digit    -- `\d`
  | anyNoNl  -- `.` (no DOTALL: everything except a newline)
  | quote    -- `['"]`
deriving DecidableEq, Repr

def inClass : CClass → Char → Bool
  | .ws, c => isPyWs c
  | .word, c => isWordChar c
  | .digit, c => isDigitChar c
  | .anyNoNl, c => c ≠ '\n'
  | .quote, c => c = '"' || c.toNat = 39

inductive RElem where
  | lit (s : List Char)              -- case-insensitive literal (stored lowercase)
  | one (p : CClass)                 -- exactly one char of the class
  | many (p : CClass) (atLeast : Nat)  -- `atLeast` or more chars of the class
deriving DecidableEq, Repr

def reWeight : RElem → Nat
  | .lit s => s.length + 1
  | _ => 1

def reWeightSum (es : List RElem) : Nat := (es.map reWeight).sum

/-- Backtracking "match at this position".  Each recursive call strictly
decreases `cs.length + reWeightSum es`, so the fuel passed by `reSearch`
(`cs.length + reWeightSum es + 1`) can never run out. -/
def matchAt : Nat → List RElem → List Char → Bool
  | 0, _, _ => false
  | _ + 1, [], _ => true
  | fuel + 1, .lit [] :: es, cs => matchAt fuel es cs
  | fuel + 1, .lit (a :: l) :: es, cs =>
    match cs with
    | [] => false
    | c :: cs' => a = c.toLower && matchAt fuel (.lit l :: es) cs'
  | fuel + 1, .one p :: es, cs =>
    match cs with
    | [] => false
    | c :: cs' => inClass p c && matchAt fuel es cs'
  | fuel + 1, .many p 0 :: es, cs =>
    matchAt fuel es cs ||
      (match cs with
       | [] => false
       | c :: cs' => inClass p c && matchAt fuel (.many p 0 :: es) cs')
  | fuel + 1, .many p (n + 1) :: es, cs =>
    match cs with
    | [] => false
    | c :: cs' => inClass p c && matchAt fuel (.many p n :: es) cs'

/-- `re.search`: try to match at every starting position. -/
def reSearch (es : List RElem) : List Char → Bool
  | [] => matchAt (reWeightSum es + 1) es []
  | cs@(_ :: rest) =>
    matchAt (cs.length + reWeightSum es + 1) es cs || reSearch es rest

def rlit (s : String) : RElem := .lit s.data

/-! ## The analyzer's fixed tables (script_analyzer.py lines 42-115) -/

def GPU_LIBRARIES : List (String × String) :=
  [("torch", "PyTorch deep learning"),
   ("tensorflow", "TensorFlow deep learning"),
   ("keras", "Keras neural networks"),
   ("cupy", "CUDA-accelerated NumPy"),
   ("cudf", "CUDA DataFrame"),
   ("cuml", "CUDA Machine Learning"),
   ("pycuda", "Python CUDA bindings"),
   ("numba", "JIT compiler (may use GPU)"),
   ("jax", "JAX accelerated computing"),
   ("mxnet", "MXNet deep learning"),
   ("paddle", "PaddlePaddle deep learning"),
   ("onnxruntime", "ONNX Runtime (may use GPU)")]

def MEMORY_INTENSIVE_LIBRARIES : List (String × String) :=
  [("pandas", "DataFrame operations"),
   ("numpy", "Numerical computing"),
   ("scipy", "Scientific computing"),
   ("sklearn", "Machine Learning"),
   ("scikit-learn", "Machine Learning"),
   ("xgboost", "Gradient Boosting"),
   ("lightgbm", "Light Gradient Boosting"),
   ("catboost", "CatBoost"),
   ("dask", "Parallel computing"),
   ("polars", "Fast DataFrame"),
   ("vaex", "Out-of-core DataFrames"),
   ("modin", "Parallel Pandas"),
   ("opencv", "Computer Vision"),
   ("cv2", "OpenCV"),
   ("PIL", "Image Processing"),
   ("pillow", "Image Processing"),
   ("matplotlib", "Plotting (memory for figures)"),
   ("seaborn", "Statistical visualization"),
   ("plotly", "Interactive plots")]

def COMPUTE_INTENSIVE_PATTERNS : List (List RElem × String) :=
  [([rlit ".fit", .many .ws 0, rlit "("], "Model training detected"),
   ([rlit ".train", .many .ws 0, rlit "("], "Training loop detected"),
   ([rlit "for", .many .ws 1, rlit "epoch", .many .ws 1, rlit "in"], "Epoch loop detected"),
   ([rlit "for", .many .ws 1, .many .word 1, .many .ws 1, rlit "in", .many .ws 1,
     rlit "range", .many .ws 0, rlit "(", .many .ws 0, .many .digit 4], "Large iteration loop"),
   ([rlit "while", .many .ws 1, rlit "true"], "Infinite loop pattern"),
   ([rlit ".cuda", .many .ws 0, rlit "("], "CUDA tensor transfer"),
   ([rlit ".to", .many .ws 0, rlit "(", .many .ws 0, .one .quote, rlit "cuda"], "CUDA device transfer"),
   ([rlit "torch.device", .many .ws 0, rlit "(", .many .ws 0, .one .quote, rlit "cuda"], "CUDA device creation"),
   ([rlit "with", .many .ws 1, rlit "tf.device", .many .anyNoNl 0, rlit "gpu"], "TensorFlow GPU context"),
   ([rlit "model.compile"], "Keras model compilation"),
   ([rlit "dataloader"], "PyTorch DataLoader"),
   ([rlit "tf.data.dataset"], "TensorFlow Dataset"),
   ([rlit ".backward", .many .ws 0, rlit "("], "Backpropagation"),
   ([rlit "optimizer.step"], "Optimizer step"),
   ([rlit ".predict", .many .ws 0, rlit "("], "Model prediction"),
   ([rlit ".transform", .many .ws 0, rlit "("], "Data transformation"),
   ([rlit "multiprocessing"], "Multiprocessing"),
   ([rlit "threadpoolexecutor"], "Thread pool"),
   ([rlit "processpoolexecutor"], "Process pool")]

def GPU_USAGE_PATTERNS : List (List RElem × String) :=
  [([rlit ".cuda", .many .ws 0, rlit "("], "CUDA transfer"),
   ([rlit ".to", .many .ws 0, rlit "(", .many .ws 0, .one .quote, rlit "cuda"], "To CUDA device"),
   ([rlit "torch.cuda"], "PyTorch CUDA"),
   ([rlit "tf.config", .many .anyNoNl 0, rlit "gpu"], "TensorFlow GPU config"),
   ([rlit "with", .many .ws 1, rlit "tf.device", .many .anyNoNl 0, rlit "gpu"], "TensorFlow GPU device"),
   ([rlit "gpu_options"], "GPU options"),
   ([rlit "cuda_visible_devices"], "CUDA environment"),
   ([rlit "cupy."], "CuPy operations"),
   ([rlit "@cuda.jit"], "Numba CUDA JIT"),
   ([rlit "device", .many .ws 0, rlit "=", .many .ws 0, .one .quote, rlit "cuda"], "CUDA device assignment")]

/-! ## Library detection (`ScriptAnalyzer._detect_libraries`, lines 186-207) -/

/-- The capture of `^<kw>\s+(\w+)` on one line together with the remainder
after the captured word.  Import patterns are matched case-sensitively
(`re.findall` without flags). -/
def capImportRest (kw : List Char) (line : List Char) : Option (String × List Char) :=
  if kw.isPrefixOf line then
    let r1 := line.drop kw.length
    let wsRun := r1.takeWhile isPyWs
    if wsRun.isEmpty then none
    else
      let r2 := r1.drop wsRun.length
      let w := r2.takeWhile isWordChar
      if w.isEmpty then none else some (String.mk w, r2.drop w.length)
  else none

def capImportWord (kw : List Char) (line : List Char) : Option String :=
  (capImportRest kw line).map Prod.fst

/-- The capture of `^import\s+(\w+)\s+as`. -/
def capImportAsWord (line : List Char) : Option String :=
  match capImportRest "import".data line with
  | none => none
  | some (w, rest) =>
    let wsRun := rest.takeWhile isPyWs
    if wsRun.isEmpty then none
    else if "as".data.isPrefixOf (rest.drop wsRun.length) then some w else none

/-- `script.split('\n')` (which is also where `re.MULTILINE` makes `^` match):
split into lines at each newline, keeping empty segments, like Python's
`str.split`. -/
def splitLinesAux : List Char → List Char → List (List Char)
  | [], acc => [acc.reverse]
  | c :: cs, acc =>
    if c = '\n' then acc.reverse :: splitLinesAux cs []
    else splitLinesAux cs (c :: acc)

def splitLines (s : String) : List (List Char) := splitLinesAux s.data []

/-- First-occurrence deduplication.  Models Python's `list(set(xs))`: the
CPython iteration order of a set is unspecified, and the analyzer only uses
the result through membership tests, counts of (themselves deduplicated)
derived lists, and the free-text reasoning, none of which a claim ties to a
particular set order. -/
def dedupFirstAux : List String → List String → List String
  | _, [] => []
  | seen, x :: xs =>
    if seen.contains x then dedupFirstAux seen xs
    else x :: dedupFirstAux (x :: seen) xs

def dedupFirst (xs : List String) : List String := dedupFirstAux [] xs

def detect_libraries (script : String) : List String :=
  let lines := splitLines script
  let p1 := lines.filterMap (capImportWord "import".data)
  let p2 := lines.filterMap (capImportWord "from".data)
  let p3 := lines.filterMap capImportAsWord
  let fromImports := p1 ++ p2 ++ p3
  -- "Also check for common library usage without explicit import"
  let allKeys := GPU_LIBRARIES.map Prod.fst ++ MEMORY_INTENSIVE_LIBRARIES.map Prod.fst
  let detected := allKeys.foldl
    (fun acc lib =>
      if (containsSub (lib ++ ".").data script.data ||
          containsSub (lib ++ "(").data script.data) && !acc.contains lib
      then acc ++ [lib] else acc)
    fromImports
  dedupFirst detected

/-! ## Indicator detection (lines 209-243) -/

def detect_gpu_usage (script : String) (libraries : List String) : List String :=
  let libInd := libraries.filterMap
    (fun lib => (GPU_LIBRARIES.lookup lib).map
      (fun d => "Library: " ++ lib ++ " (" ++ d ++ ")"))
  let patInd := GPU_USAGE_PATTERNS.filterMap
    (fun pd => if reSearch pd.1 script.data then some ("Pattern: " ++ pd.2) else none)
  dedupFirst (libInd ++ patInd)

def detect_memory_usage (libraries : List String) : List String :=
  libraries.filterMap
    (fun lib => (MEMORY_INTENSIVE_LIBRARIES.lookup lib).map
      (fun d => lib ++ " (" ++ d ++ ")"))

def detect_compute_patterns (script : String) : List String :=
  dedupFirst (COMPUTE_INTENSIVE_PATTERNS.filterMap
    (fun pd => if reSearch pd.1 script.data then some pd.2 else none))

/-! ## Profile decision (`ScriptAnalyzer._determine_profile`, lines 245-305)

Float constants are modelled exactly: 0.9 = 9/10, 0.85 = 17/20, 0.8 = 4/5,
0.7 = 7/10, 0.5 = 1/2, 0.1 = 1/10, 0.05 = 1/20. -/

structure ProfileDecision where
  profile : String
  execution_mode : String
  confidence : ℚ
  reasoning : String
deriving DecidableEq, Repr

def libraryListText (libraries : List String) : String :=
  let names := libraries.take 5
  let names :=
    if 5 < libraries.length
    then names ++ ["...and " ++ toString (libraries.length - 5) ++ " more"]
    else names
  "Detected: " ++ String.intercalate ", " names

def determine_profile (libraries gpu_indicators memory_indicators compute_indicators :
    List String) : ProfileDecision :=
  let gpu_score := gpu_indicators.length * 3
  let memory_score := memory_indicators.length * 2
  let compute_score := compute_indicators.length * 2
  let total_score := gpu_score + memory_score + compute_score
  let parts0 : List String :=
    if 3 ≤ gpu_score
    then ["GPU recommended (" ++ toString gpu_indicators.length ++ " GPU indicators)"]
    else []
  let execution_mode := if 3 ≤ gpu_score then "gpu" else "cpu"
  let (profile, confidence, profilePart) :=
    if 3 ≤ gpu_score then
      ("gpu", min (9/10 : ℚ) (1/2 + (gpu_score : ℚ) * (1/10)),
       "Using GPU profile for deep learning workload")
    else if 8 ≤ total_score then
      ("large", min (17/20 : ℚ) (1/2 + (total_score : ℚ) * (1/20)),
       "Heavy computation detected - using large profile")
    else if 4 ≤ total_score then
      ("medium", min (4/5 : ℚ) (1/2 + (total_score : ℚ) * (1/20)),
       "Moderate resource needs - using medium profile")
    else if 2 ≤ memory_score then
      ("medium", (7/10 : ℚ), "Memory-intensive libraries detected")
    else
      ("small", (4/5 : ℚ), "Simple script - using small profile")
  let parts1 := parts0 ++ [profilePart]
  let parts2 :=
    if libraries.isEmpty then parts1 else parts1 ++ [libraryListText libraries]
  ⟨profile, execution_mode, confidence, String.intercalate ". " parts2⟩

/-! ## `ScriptAnalyzer.analyze` (lines 126-184) -/

structure ScriptAnalysis where
  recommended_profile : String
  execution_mode : String
  detected_libraries : List String
  gpu_indicators : List String
  memory_indicators : List String
  compute_indicators : List String
  confidence : ℚ
  reasoning : String
deriving DecidableEq, Repr

def emptyScriptAnalysis : ScriptAnalysis :=
  ⟨"small", "cpu", [], [], [], [], 1, "Empty or minimal script - using small profile"⟩

def analyze (gpu_available : Bool) (script_content : String) : ScriptAnalysis :=
  if isBlankStr script_content then emptyScriptAnalysis
  else
    let detected_libs := detect_libraries script_content
    let gpu_indicators := detect_gpu_usage script_content detected_libs
    let memory_indicators := detect_memory_usage detected_libs
    let compute_indicators := detect_compute_patterns script_content
    let d := determine_profile detected_libs gpu_indicators memory_indicators compute_indicators
    -- "If GPU not available but recommended, fallback to CPU"
    let (mode, profile, reasoning) :=
      if d.execution_mode = "gpu" ∧ gpu_available = false then
        ("cpu",
         if d.profile = "gpu" then "large" else d.profile,
         d.reasoning ++ " (GPU not available, using CPU fallback)")
      else (d.execution_mode, d.profile, d.reasoning)
    ⟨profile, mode, detected_libs, gpu_indicators, memory_indicators,
     compute_indicators, d.confidence, reasoning⟩

/-! ## Job submission allocation (`submit_job`, jobs.py lines 129-161)

Note: the handler never reads `request.execution_mode` — the effective mode
always comes from the analysis, except that explicitly choosing the "gpu"
profile forces gpu mode.  The parameter is kept to state the claims about it. -/

structure Allocation where
  execution_mode : String
  resource_profile : String
  auto_allocated : Bool
deriving DecidableEq, Repr

def submitAllocation (gpuAvailable : Bool) (code : String)
    (_reqExecutionMode reqResourceProfile : String) : Allocation :=
  let analysis := analyze gpuAvailable code
  let exec0 := analysis.execution_mode
  if reqResourceProfile = "auto" then
    { execution_mode := exec0, resource_profile := analysis.recommended_profile,
      auto_allocated := true }
  else
    { execution_mode := if reqResourceProfile = "gpu" then "gpu" else exec0,
      resource_profile := reqResourceProfile, auto_allocated := true }

/-- `job.timeout_seconds` as set by `submit_job` (jobs.py lines 150-155):
a custom `timeout` override replaces the requested timeout, clamped to
[10, 3600]; a non-numeric override raises at `min` (modelled `none`). -/
def submitTimeoutSeconds (reqTimeout : ℚ) (customConfig : Option ConfigDict) : Option ℚ :=
  match customConfig with
  | none => some reqTimeout
  | some cfg =>
    match dictGet "timeout" cfg with
    | none => some reqTimeout
    | some (JVal.num t) => some (max 10 (min t 3600))
    | some JVal.other => none

/-- The effective timeout of `execute_job` (executor.py lines 624-626):
`min(job.timeout_seconds, limits["timeout"])`. -/
def executorEffectiveTimeout (timeout_seconds : ℚ) (profile : String)
    (reasoning : Option String) : Option ℚ :=
  (get_resource_limits profile reasoning).map (fun l => min timeout_seconds l.timeout)

/-! ## Job statuses and the `Job` record (models.py lines 22-30, 144-166)

Statuses are the strings of `JobStatus.<X>.value`, exactly as the routes and
the executor compare them.  Times are rationals (seconds). -/

def terminalStatuses : List String := ["success", "failed", "cancelled", "timeout"]

/-- `Job.is_finished` (models.py lines 149-157). -/
def is_finished (status : String) : Bool :=
  status = "success" || status = "failed" || status = "cancelled" || status = "timeout"

/-- `Job.is_cancellable` (models.py lines 159-166). -/
def is_cancellable (status : String) : Bool :=
  status = "pending" || status = "queued" || status = "running"

structure JobRec where
  status : String
  started_at : Option ℚ
  finished_at : Option ℚ
  duration_seconds : Option ℚ
deriving DecidableEq, Repr

/-- The status decision of `execute_job` after `_wait_for_container`
(executor.py lines 637-647): the `cancelled` flag of the result wins over the
`timeout` flag, which wins over the exit code. -/
def decide_status (cancelled timedOut : Bool) (exit_code : Int) : String :=
  if cancelled then "cancelled"
  else if timedOut then "timeout"
  else if exit_code = 0 then "success"
  else "failed"

/-- The database update performed by the `cancel_job` route (jobs.py lines
467-489).  The route checks `is_finished`/`is_cancellable` only to choose a
log message — it never returns early on them — and then unconditionally sets
`status = CANCELLED`, `finished_at = now`, recomputing the duration when
`started_at` is set. -/
def cancel_route_update (j : JobRec) (now : ℚ) : JobRec :=
  { j with
    status := "cancelled",
    finished_at := some now,
    duration_seconds :=
      match j.started_at with
      | some s => some (now - s)
      | none => j.duration_seconds }

/-! ## The cancellation race (executor.py lines 599-758, jobs.py lines 476-489)

An interleaving model of one running job's supervision task racing the HTTP
cancel route, at the granularity of the observable shared-state effects:

* Supervisor (`execute_job` / `_wait_for_container`): the polling loop
  (lines 730-743) reloads the container; on `status == "exited"` it captures
  the exit code and breaks; a `docker.errors.NotFound` raised by `reload()` on
  a removed container escapes `_wait_for_container` and is caught by
  `except Exception` (line 672), marking the job `failed`.  Otherwise the
  result is processed by `decide_status` with `cancelled = false`,
  `timeout = false` — the HTTP route never cancels the asyncio task, so the
  `asyncio.CancelledError` branch (line 745) is unreachable from it.
* Route (`cancel_job` + `DockerExecutor.cancel_job`): `container.kill()`
  (a process killed by SIGKILL reports exit code 137), then
  `container.remove(force=True)`, then `job.status = CANCELLED; db.commit()`.

The last writer of `jobStatus` wins, as with two sessions committing to the
same row. -/

inductive CState where
  | running
  | exited (code : Int)
  | removed
deriving DecidableEq, Repr

inductive SupPc where
  | polling
  | finalizing (observedExit : Option Int)  -- `none` models the NotFound path
  | done
deriving DecidableEq, Repr

inductive RoutePc where
  | start
  | killed
  | removedContainer
  | done
deriving DecidableEq, Repr

structure RaceState where
  jobStatus : String
  container : CState
  sup : SupPc
  route : RoutePc
deriving DecidableEq, Repr

inductive Actor where
  | sup
  | route
deriving DecidableEq, Repr

def stepSup (s : RaceState) : RaceState :=
  match s.sup with
  | .polling =>
    match s.container with
    | .running => s  -- container still up: sleep and poll again
    | .exited c => { s with sup := .finalizing (some c) }
    | .removed => { s with sup := .finalizing none }  -- reload() raises NotFound
  | .finalizing obs =>
    { s with
      jobStatus :=
        match obs with
        | some c => decide_status false false c
        | none => "failed",  -- except Exception: status = FAILED
      sup := .done }
  | .done => s

def stepRoute (s : RaceState) : RaceState :=
  match s.route with
  | .start =>
    { s with
      container := match s.container with
                   | .running => .exited 137  -- container.kill()
                   | c => c,
      route := .killed }
  | .killed => { s with container := .removed, route := .removedContainer }
  | .removedContainer => { s with jobStatus := "cancelled", route := .done }
  | .done => s

def raceStep (a : Actor) (s : RaceState) : RaceState :=
  match a with
  | .sup => stepSup s
  | .route => stepRoute s

def raceRun (sched : List Actor) (s : RaceState) : RaceState :=
  sched.foldl (fun st a => raceStep a st) s

/-- A running job at the moment the cancel request arrives. -/
def raceInit : RaceState :=
  { jobStatus := "running", container := .running, sup := .polling, route := .start }

/-! ## WebSocket replay for finished jobs (websocket.py lines 169-188, 272-293) -/

inductive WsEvent where
  | connected (status : String)
  | log (message : String) (line_number : Nat)
  | complete (status : String)
deriving DecidableEq, Repr

/-- `send_existing_logs` (websocket.py lines 272-293): for each line of the
persisted log file starting at index `start`, skip lines that are blank after
`strip()`, otherwise emit a log event carrying `line.rstrip()` and
`line_number = i + 1`. -/
def send_existing_logs (logLines : List String) (start : Nat) : List WsEvent :=
  go (logLines.drop start) start
where
  go : List String → Nat → List WsEvent
    | [], _ => []
    | l :: ls, i =>
      if isBlankStr l then go ls (i + 1)
      else .log (pyRstrip l) (i + 1) :: go ls (i + 1)

/-- The event sequence `websocket_job_logs` sends to a subscriber whose job is
already in a terminal state (websocket.py lines 169-188): the `connected`
confirmation, the replayed persisted log, one `complete` event, then the
handler returns (no further events).  `logLines` is `f.readlines()` of the
persisted log file (an absent file behaves as the empty list). -/
def terminalWsEvents (status : String) (logLines : List String) : List WsEvent :=
  .connected status :: (send_existing_logs logLines 0 ++ [.complete status])

/-! ## Observation helpers for the claims -/

def isCompleteEvent : WsEvent → Bool
  | .complete _ => true
  | _ => false

def isLogEvent : WsEvent → Bool
  | .log _ _ => true
  | _ => false

def logMessages (evs : List WsEvent) : List String :=
  evs.filterMap (fun e => match e with | .log m _ => some m | _ => none)

/-- The matched score of an analysis result, as `_determine_profile` computes
it from the indicator lists (gpu·3 + memory·2 + compute·2). -/
def matchedScore (a : ScriptAnalysis) : Nat :=
  a.gpu_indicators.length * 3 + a.memory_indicators.length * 2 +
    a.compute_indicators.length * 2

/-- A job that already finished successfully. -/
def jobSuccessExample : JobRec :=
  { status := "success", started_at := some 50, finished_at := some 100,
    duration_seconds := some 50 }

/-- An `analysis_reasoning` as written by `submit_job` for
`custom_config = {"timeout": 3000}` (jobs.py line 182). -/
def c5Reasoning : String :=
  "Simple script - using small profile | Custom config: \x7b'timeout': 3000\x7d | CUSTOM_CONFIG:\x7b\"timeout\": 3000\x7d"

/-- An `analysis_reasoning` whose CUSTOM_CONFIG payload is not valid JSON. -/
def c10Reasoning : String := "auto | CUSTOM_CONFIG:\x7bnot json\x7d"

/-- An `analysis_reasoning` requesting `memory_mb = 100000`. -/
def c4Reasoning : String := "auto | CUSTOM_CONFIG:\x7b\"memory_mb\": 100000\x7d"

/-- A persisted log whose second line is blank. -/
def c9LogLines : List String := ["hello\n", "\n", "world\n"]

/-- The invariant of the cancellation race: the job is never `success`, a
killed container reports exit code 137, and any exit the supervisor observed
came from the kill. -/
def raceInv (s : RaceState) : Prop :=
  s.jobStatus ≠ "success" ∧
  (∀ c, s.container = .exited c → c = 137) ∧
  (∀ c, s.sup = .finalizing (some c) → c = 137)

/-! # Theorems -/

theorem raceStep_preserves (a : Actor) (s : RaceState) (h : raceInv s) :
    raceInv (raceStep a s) := by
  obtain ⟨h1, h2, h3⟩ := h
  cases a with
  | sup =>
    rcases hs : s.sup with _ | obs | _
    · rcases hc : s.container with _ | c | _
      · simp only [raceStep, stepSup, hs, hc]
        exact ⟨h1, h2, h3⟩
      · simp only [raceStep, stepSup, hs, hc]
        refine ⟨h1, ?_, ?_⟩
        · intro c' hc'
          have hcc : c = c' := by simpa using hc'
          exact hcc ▸ h2 c hc
        · intro c' hc'
          have hcc : c = c' := by simpa using hc'
          exact hcc ▸ h2 c hc
      · simp only [raceStep, stepSup, hs, hc]
        refine ⟨h1, ?_, ?_⟩
        · intro c' hc'
          simp at hc'
        · intro c' hc'
          simp at hc'
    · simp only [raceStep, stepSup, hs]
      refine ⟨?_, h2, ?_⟩
      · rcases obs with _ | c
        · simp [decide_status]
        · have hc137 := h3 c hs
          subst hc137
          simp [decide_status]
      · intro c' hc'
        simp at hc'
    · simp only [raceStep, stepSup, hs]
      exact ⟨h1, h2, h3⟩
  | route =>
    rcases hr : s.route with _ | _ | _ | _
    · simp only [raceStep, stepRoute, hr]
      refine ⟨h1, ?_, h3⟩
      intro c' hc'
      rcases hc : s.container with _ | c | _ <;> rw [hc] at hc' <;> simp only at hc'
      · simpa using hc'.symm
      · exact h2 c' (by rw [hc, hc'])
      · simp at hc'
    · simp only [raceStep, stepRoute, hr]
      refine ⟨h1, ?_, h3⟩
      intro c' hc'
      simp at hc'
    · simp only [raceStep, stepRoute, hr]
      refine ⟨?_, h2, h3⟩
      show ("cancelled" : String) ≠ "success"
      decide
    · simp only [raceStep, stepRoute, hr]
      exact ⟨h1, h2, h3⟩

theorem raceRun_preserves (sched : List Actor) (s : RaceState) (h : raceInv s) :
    raceInv (raceRun sched s) := by
  induction sched generalizing s with
  | nil => exact h
  | cons a rest ih =>
    have : raceRun (a :: rest) s = raceRun rest (raceStep a s) := rfl
    rw [this]
    exact ih _ (raceStep_preserves a s h)

/-- Claim C1 (counterexample): a job that already reached the terminal state
`success` is not immutable — a later cancel request through the `cancel_job`
route changes its status to `cancelled` and rewrites `finished_at` and
`duration_seconds`. -/
theorem C1_cancel_overwrites_terminal :
    is_finished jobSuccessExample.status = true ∧
    (cancel_route_update jobSuccessExample 200).status = "cancelled" ∧
    (cancel_route_update jobSuccessExample 200).status ≠ jobSuccessExample.status ∧
    (cancel_route_update jobSuccessExample 200).finished_at ≠ jobSuccessExample.finished_at ∧
    (cancel_route_update jobSuccessExample 200).duration_seconds ≠
      jobSuccessExample.duration_seconds := by
  refine ⟨by decide, rfl, by decide, ?_, ?_⟩
  · simp only [cancel_route_update, jobSuccessExample, Option.some.injEq, ne_eq]
    norm_num
  · simp only [cancel_route_update, jobSuccessExample, Option.some.injEq, ne_eq]
    norm_num

/-- Claim C1 (amended): the executor's finalization decision always produces
one of the four terminal statuses, but terminal statuses are not immutable: a
cancel request — also on an already-finished job — always rewrites the status
to `cancelled` and refreshes `finished_at` and the duration; a second cancel
leaves the status `cancelled`. -/
theorem C1_terminal_amended (j : JobRec) (t t' : ℚ) (c tf : Bool) (e : Int) :
    (cancel_route_update j t).status = "cancelled" ∧
    (cancel_route_update (cancel_route_update j t) t').status = "cancelled" ∧
    (cancel_route_update j t).finished_at = some t ∧
    is_finished (decide_status c tf e) = true := by
  refine ⟨rfl, rfl, rfl, ?_⟩
  unfold decide_status is_finished
  split_ifs <;> simp

/-- Claim C2 (counterexample): a cancel request that arrives while the job is
`running` and before the supervisor finalizes can still end in `failed`: the
route kills and removes the container and commits `cancelled`, then the
supervisor's poll observes the removed container (NotFound) and its exception
handler commits `failed` last. -/
theorem C2_cancel_race_resolves_failed :
    raceInit.jobStatus = "running" ∧ raceInit.sup = .polling ∧
    (raceRun [.route, .route, .route, .sup, .sup] raceInit).jobStatus = "failed" ∧
    ("failed" : String) ≠ "cancelled" := by
  decide

/-- Claim C2 (amended): inside the executor's own result check, an observed
cancellation wins over any concurrently observed exit (`decide_status` gives
the cancelled flag priority), and a cancelled run can never finalize as
`success`; but an HTTP cancel request does not cancel the supervision task, so
the supervisor may overwrite the route's `cancelled` with `failed` when its
write lands last — the status stays `cancelled` only in interleavings where
the route's write is last. -/
theorem C2_cancel_race_amended :
    (∀ (t : Bool) (e : Int), decide_status true t e = "cancelled") ∧
    (∀ sched : List Actor, (raceRun sched raceInit).jobStatus ≠ "success") ∧
    (raceRun [.route, .route, .sup, .sup, .route] raceInit).jobStatus = "cancelled" := by
  refine ⟨fun t e => rfl, ?_, by decide⟩
  intro sched
  have h0 : raceInv raceInit := by
    refine ⟨by simp [raceInit], ?_, ?_⟩ <;> intro c hc <;> simp [raceInit] at hc
  exact (raceRun_preserves sched raceInit h0).1

/-- Claim C10: when `analysis_reasoning` carries a `CUSTOM_CONFIG:` marker
whose payload fails to parse as JSON, `get_resource_limits` returns exactly
the resolved profile's defaults — the `json.loads` failure happens before any
limit is touched, so no partial override is ever applied. -/
theorem C10_invalid_json_no_override (profile r payload : String)
    (h1 : findCustomConfig r.data = some payload)
    (h2 : jsonParse payload = none) :
    get_resource_limits profile (some r) = some (resolveProfile profile) := by
  simp only [get_resource_limits, h1, h2]

/-- Witness for C10 at a concrete reasoning string with an unparseable
payload. -/
theorem C10_invalid_json_no_override_witness :
    findCustomConfig c10Reasoning.data = some "\x7bnot json\x7d" ∧
    jsonParse "\x7bnot json\x7d" = none ∧
    get_resource_limits "small" (some c10Reasoning) = some (resolveProfile "small") := by
  refine ⟨by decide, by decide, ?_⟩
  exact C10_invalid_json_no_override "small" c10Reasoning "\x7bnot json\x7d"
    (by decide) (by decide)

theorem applyCustomOverrides_spec (base : Limits) (cfg : ConfigDict) (l : Limits)
    (h : applyCustomOverrides base cfg = some l) :
    (l.memory_mb = match dictGet "memory_mb" cfg with
       | some (JVal.num v) => max 256 (min v 8192)
       | _ => base.memory_mb) ∧
    (l.cpu_shares = match dictGet "cpu_shares" cfg with
       | some (JVal.num v) => max 256 (min v 4096)
       | _ => base.cpu_shares) ∧
    (l.timeout = match dictGet "timeout" cfg with
       | some (JVal.num v) => max 10 (min v 3600)
       | _ => base.timeout) := by
  unfold applyCustomOverrides applyMemoryOverride applyCpuOverride applyTimeoutOverride at h
  rcases h1 : dictGet "memory_mb" cfg with _ | v1 <;> rw [h1] at h <;>
    [skip; rcases v1 with q1 | _] <;>
    simp only [Option.some.injEq] at h <;>
    [skip; skip; exact absurd h (by simp)] <;>
  · rcases h2 : dictGet "cpu_shares" cfg with _ | v2 <;> rw [h2] at h <;>
      [skip; rcases v2 with q2 | _] <;>
      simp only [Option.some.injEq] at h <;>
      [skip; skip; exact absurd h (by simp)] <;>
    · rcases h3 : dictGet "timeout" cfg with _ | v3 <;> rw [h3] at h <;>
        [skip; rcases v3 with q3 | _] <;>
        simp only [Option.some.injEq] at h <;>
        [subst h; subst h; exact absurd h (by simp)] <;>
        exact ⟨rfl, rfl, rfl⟩

theorem resolveProfile_bounds (p : String) :
    (256 ≤ (resolveProfile p).memory_mb ∧ (resolveProfile p).memory_mb ≤ 8192) ∧
    (256 ≤ (resolveProfile p).cpu_shares ∧ (resolveProfile p).cpu_shares ≤ 4096) ∧
    (10 ≤ (resolveProfile p).timeout ∧ (resolveProfile p).timeout ≤ 3600) := by
  unfold resolveProfile smallLimits mediumLimits largeLimits gpuLimits
  split_ifs <;> refine ⟨⟨?_, ?_⟩, ⟨?_, ?_⟩, ⟨?_, ?_⟩⟩ <;> norm_num

theorem overrideMatch_bounds (lo hi bv : ℚ) (d : Option JVal)
    (hb : lo ≤ bv ∧ bv ≤ hi) (hlohi : lo ≤ hi) :
    lo ≤ (match d with | some (JVal.num v) => max lo (min v hi) | _ => bv) ∧
    (match d with | some (JVal.num v) => max lo (min v hi) | _ => bv) ≤ hi := by
  rcases d with _ | v
  · exact hb
  · rcases v with q | _
    · exact ⟨le_max_left _ _, max_le hlohi (min_le_right _ _)⟩
    · exact hb

/-- Claim C4: every limits record that `get_resource_limits` actually returns
(for any profile name and any stored reasoning, overridden or not) satisfies
`memory_mb ∈ [256, 8192]`, `cpu_shares ∈ [256, 4096]`,
`timeout ∈ [10, 3600]`; and a custom override requesting
`memory_mb = 100000` yields exactly 8192. -/
theorem C4_limits_clamped :
    (∀ (profile : String) (reasoning : Option String) (l : Limits),
        get_resource_limits profile reasoning = some l →
        (256 ≤ l.memory_mb ∧ l.memory_mb ≤ 8192) ∧
        (256 ≤ l.cpu_shares ∧ l.cpu_shares ≤ 4096) ∧
        (10 ≤ l.timeout ∧ l.timeout ≤ 3600)) ∧
    (∀ (profile : String) (cfg : ConfigDict) (l : Limits),
        applyCustomOverrides (resolveProfile profile) cfg = some l →
        dictGet "memory_mb" cfg = some (JVal.num 100000) →
        l.memory_mb = 8192) := by
  constructor
  · intro profile reasoning l h
    have hb := resolveProfile_bounds profile
    have hmain : ∀ (cfg : ConfigDict),
        applyCustomOverrides (resolveProfile profile) cfg = some l →
        (256 ≤ l.memory_mb ∧ l.memory_mb ≤ 8192) ∧
        (256 ≤ l.cpu_shares ∧ l.cpu_shares ≤ 4096) ∧
        (10 ≤ l.timeout ∧ l.timeout ≤ 3600) := by
      intro cfg hc
      obtain ⟨hm, hcpu, ht⟩ := applyCustomOverrides_spec _ _ _ hc
      refine ⟨?_, ?_, ?_⟩
      · rw [hm]
        exact overrideMatch_bounds 256 8192 _ _ hb.1 (by norm_num)
      · rw [hcpu]
        exact overrideMatch_bounds 256 4096 _ _ hb.2.1 (by norm_num)
      · rw [ht]
        exact overrideMatch_bounds 10 3600 _ _ hb.2.2 (by norm_num)
    unfold get_resource_limits at h
    rcases reasoning with _ | r <;> dsimp only at h
    · simp only [Option.some.injEq] at h
      subst h
      exact hb
    · rcases hf : findCustomConfig r.data with _ | payload <;> rw [hf] at h <;>
        dsimp only at h
      · simp only [Option.some.injEq] at h
        subst h
        exact hb
      · rcases hj : jsonParse payload with _ | cfg <;> rw [hj] at h
        · simp only [Option.some.injEq] at h
          subst h
          exact hb
        · exact hmain cfg h
  · intro profile cfg l h hd
    obtain ⟨hm, _, _⟩ := applyCustomOverrides_spec _ _ _ h
    rw [hm, hd]
    norm_num

/-- Witness for C4: the small profile with the reasoning string requesting
`memory_mb = 100000` resolves to a record whose memory limit is exactly 8192
and whose fields are inside the clamping ranges. -/
theorem C4_limits_clamped_witness :
    get_resource_limits "small" (some c4Reasoning) = some ⟨512, 8192, 60, false⟩ ∧
    ((256 ≤ (Limits.mk 512 8192 60 false).memory_mb ∧
        (Limits.mk 512 8192 60 false).memory_mb ≤ 8192) ∧
      (256 ≤ (Limits.mk 512 8192 60 false).cpu_shares ∧
        (Limits.mk 512 8192 60 false).cpu_shares ≤ 4096) ∧
      (10 ≤ (Limits.mk 512 8192 60 false).timeout ∧
        (Limits.mk 512 8192 60 false).timeout ≤ 3600)) ∧
    (Limits.mk 512 8192 60 false).memory_mb = 8192 := by
  have h : get_resource_limits "small" (some c4Reasoning) = some ⟨512, 8192, 60, false⟩ := by
    decide
  have h2 : applyCustomOverrides (resolveProfile "small")
      [("memory_mb", JVal.num 100000)] = some ⟨512, 8192, 60, false⟩ := by decide
  refine ⟨h, C4_limits_clamped.1 "small" (some c4Reasoning) _ h, ?_⟩
  exact C4_limits_clamped.2 "small" [("memory_mb", JVal.num 100000)] _ h2 (by decide)

/-- Claim C5 (counterexample): with requested timeout 20, profile `small`
(default timeout 60) and a custom override `timeout = 3000`, the effective
timeout used by `execute_job` is 3000 — not
`min(requested, profile default, override) = 20` as claimed: the override
replaces the requested timeout in `submit_job` and the profile timeout in
`get_resource_limits`, so the minimum degenerates to the override alone. -/
theorem C5_custom_timeout_not_min :
    (submitTimeoutSeconds 20 (some [("timeout", JVal.num 3000)])).bind
      (fun ts => executorEffectiveTimeout ts "small" (some c5Reasoning)) = some 3000 ∧
    (resolveProfile "small").timeout = 60 ∧
    min (min (20 : ℚ) 60) 3000 = 20 ∧
    (3000 : ℚ) ≠ 20 := by
  refine ⟨by decide, by decide, ?_, by norm_num⟩
  norm_num

/-- Claim C5 (amended): when a custom `timeout` override is present, the
effective timeout equals the override clamped to [10, 3600] — it replaces both
the requested timeout and the profile's default; only when no override is
present is the effective timeout `min(requested timeout, profile timeout)`.
The hypothesis ties the executor's view (the `CUSTOM_CONFIG` payload embedded
in `analysis_reasoning`) to the submitted custom config, which `submit_job`
serializes there. -/
theorem C5_effective_timeout_amended (profile r : String) (reqT : ℚ)
    (cfgOpt : Option ConfigDict) (e : ℚ)
    (hlink : (findCustomConfig r.data).bind jsonParse = cfgOpt)
    (heff : (submitTimeoutSeconds reqT cfgOpt).bind
              (fun ts => executorEffectiveTimeout ts profile (some r)) = some e) :
    e = match cfgOpt.bind (dictGet "timeout") with
        | some (JVal.num t) => max 10 (min t 3600)
        | _ => min reqT (resolveProfile profile).timeout := by
  rcases hf : findCustomConfig r.data with _ | payload <;> rw [hf] at hlink
  · rw [Option.none_bind] at hlink
    subst hlink
    simp only [submitTimeoutSeconds, Option.some_bind, executorEffectiveTimeout,
      get_resource_limits, hf, Option.map_some', Option.some.injEq] at heff
    subst heff
    rfl
  · rw [Option.some_bind] at hlink
    rcases hj : jsonParse payload with _ | cfg <;> rw [hj] at hlink <;> subst hlink
    · simp only [submitTimeoutSeconds, Option.some_bind, executorEffectiveTimeout,
        get_resource_limits, hf, hj, Option.map_some', Option.some.injEq] at heff
      subst heff
      rfl
    · rcases ht : dictGet "timeout" cfg with _ | v
      · simp only [submitTimeoutSeconds, ht, Option.some_bind, executorEffectiveTimeout,
          get_resource_limits, hf, hj] at heff
        obtain ⟨l, ha, hfl⟩ := Option.map_eq_some'.mp heff
        obtain ⟨_, _, htl⟩ := applyCustomOverrides_spec _ _ _ ha
        rw [ht] at htl
        dsimp only at hfl htl
        rw [htl] at hfl
        subst hfl
        simp only [Option.some_bind, ht]
      · rcases v with t | _
        · simp only [submitTimeoutSeconds, ht, Option.some_bind, executorEffectiveTimeout,
            get_resource_limits, hf, hj] at heff
          obtain ⟨l, ha, hfl⟩ := Option.map_eq_some'.mp heff
          obtain ⟨_, _, htl⟩ := applyCustomOverrides_spec _ _ _ ha
          rw [ht] at htl
          dsimp only at hfl htl
          rw [htl, min_self] at hfl
          subst hfl
          simp only [Option.some_bind, ht]
        · simp only [submitTimeoutSeconds, ht, Option.none_bind] at heff
          exact absurd heff (by simp)

/-- Witness for C5 (amended) at the concrete reasoning string carrying a
`timeout = 3000` override with requested timeout 20 and profile `small`. -/
theorem C5_effective_timeout_amended_witness :
    (3000 : ℚ) = max 10 (min 3000 3600) :=
  C5_effective_timeout_amended "small" c5Reasoning 20
    (some [("timeout", JVal.num 3000)]) 3000 (by decide) (by decide)

/-- Claim C3 (counterexample): `submit_job` ignores the user's requested
execution mode.  A user requesting mode `gpu` with profile `small` on a plain
script gets mode `cpu` (the analyzer's recommendation); a user requesting mode
`cpu` with profile `small` on a CUDA script gets mode `gpu`. -/
theorem C3_requested_mode_ignored :
    (submitAllocation true "x = 1" "gpu" "small").execution_mode = "cpu" ∧
    (submitAllocation true "import torch\nmodel.cuda()" "cpu" "small").execution_mode
      = "gpu" ∧
    ("cpu" : String) ≠ "gpu" := by
  exact ⟨by decide, by decide, by decide⟩

/-- Claim C3 (amended): a user-specified (non-auto) resource profile is always
honored, and choosing profile `gpu` forces mode `gpu`; but the requested
execution mode is otherwise ignored — the effective mode always comes from the
analyzer's recommendation.  The analyzer's profile recommendation is applied
exactly when the user requested profile `auto`. -/
theorem C3_profile_honored_amended (g : Bool) (code m p : String) (hp : p ≠ "auto") :
    (submitAllocation g code m p).resource_profile = p ∧
    (submitAllocation g code m p).execution_mode =
      (if p = "gpu" then "gpu" else (analyze g code).execution_mode) ∧
    (submitAllocation g code m "auto").resource_profile =
      (analyze g code).recommended_profile := by
  unfold submitAllocation
  simp [hp]

/-- Witness for C3 (amended): concrete non-auto profile request. -/
theorem C3_profile_honored_amended_witness :
    (submitAllocation true "x = 1" "cpu" "small").resource_profile = "small" :=
  (C3_profile_honored_amended true "x = 1" "cpu" "small" (by decide)).1

/-- Claim C6: `_determine_profile` computes `gpu_score = 3·|gpu indicators|`,
`memory_score = 2·|memory indicators|`, `compute_score = 2·|compute
indicators|`, `total` their sum, and picks profile and mode by exactly the
ordered decision table of the claim (`gpu_score ≥ 3 → gpu/gpu`, else
`total ≥ 8 → large`, else `total ≥ 4 → medium`, else `memory_score ≥ 2 →
medium`, else `small`; mode `cpu` whenever the first rule did not fire).
The right-hand sides below are written from the claim's words. -/
theorem C6_decision_table (libraries g m c : List String) :
    (determine_profile libraries g m c).profile =
      (if 3 ≤ g.length * 3 then "gpu"
       else if 8 ≤ g.length * 3 + m.length * 2 + c.length * 2 then "large"
       else if 4 ≤ g.length * 3 + m.length * 2 + c.length * 2 then "medium"
       else if 2 ≤ m.length * 2 then "medium"
       else "small") ∧
    (determine_profile libraries g m c).execution_mode =
      (if 3 ≤ g.length * 3 then "gpu" else "cpu") := by
  unfold determine_profile
  dsimp only
  split_ifs <;> exact ⟨rfl, rfl⟩

theorem determine_profile_confidence_le (libraries g m c : List String) :
    (determine_profile libraries g m c).confidence ≤ 9/10 := by
  unfold determine_profile
  dsimp only
  split_ifs
  · exact min_le_left _ _
  · exact le_trans (min_le_left _ _) (by norm_num)
  · exact le_trans (min_le_left _ _) (by norm_num)
  · norm_num
  · norm_num

theorem analyze_confidence_eq (gAvail : Bool) (s : String) (h : isBlankStr s = false) :
    (analyze gAvail s).confidence =
      (determine_profile (detect_libraries s)
        (detect_gpu_usage s (detect_libraries s))
        (detect_memory_usage (detect_libraries s))
        (detect_compute_patterns s)).confidence := by
  unfold analyze
  rw [h, if_neg Bool.false_ne_true]

/-- Claim C7 (counterexample): the confidence `analyze` returns is not bounded
by 0.9 for every input — the empty script yields exactly 1.0 — and it is not
monotone in the matched score: a script with matched score 0 gets confidence
0.8 while a script with matched score 2 gets 0.7. -/
theorem C7_confidence_claims_fail :
    (analyze false "").confidence = 1 ∧ ¬ ((1 : ℚ) ≤ 9/10) ∧
    (analyze true "x = 1").confidence = 4/5 ∧
    matchedScore (analyze true "x = 1") = 0 ∧
    (analyze true "import pandas").confidence = 7/10 ∧
    matchedScore (analyze true "import pandas") = 2 ∧
    ¬ ((4 : ℚ)/5 ≤ 7/10) := by
  exact ⟨rfl, by norm_num, rfl, by decide, rfl, by decide, by norm_num⟩

/-- Claim C7 (amended): for every non-blank input the confidence returned by
`analyze` is at most 0.9; blank (empty or whitespace-only) input yields
confidence exactly 1.0.  Monotonicity in the matched score holds only within a
single branch of the decision table, not globally (see the counterexample). -/
theorem C7_confidence_amended (gAvail : Bool) (s : String) :
    (isBlankStr s = false → (analyze gAvail s).confidence ≤ 9/10) ∧
    (isBlankStr s = true → (analyze gAvail s).confidence = 1) := by
  constructor
  · intro h
    rw [analyze_confidence_eq gAvail s h]
    exact determine_profile_confidence_le _ _ _ _
  · intro h
    unfold analyze
    rw [h]
    rfl

/-- Witness for C7 (amended) at a concrete non-blank script. -/
theorem C7_confidence_amended_witness :
    (analyze false "x = 1").confidence ≤ 9/10 :=
  (C7_confidence_amended false "x = 1").1 (by decide)

theorem determine_profile_mem (libraries g m c : List String) :
    (determine_profile libraries g m c).profile ∈
      (["small", "medium", "large", "gpu"] : List String) ∧
    (determine_profile libraries g m c).execution_mode ∈
      (["cpu", "gpu"] : List String) := by
  unfold determine_profile
  dsimp only
  split_ifs <;> exact ⟨by simp, by simp⟩

/-- Claim C8: `analyze` is a total function of its string input (the Lean
embedding returns a `ScriptAnalysis` for every string, mirroring that the
Python code raises no exception), its outputs range over the valid profiles
and modes, and a blank (empty or whitespace-only) script yields exactly
profile `small`, mode `cpu`, confidence 1.0. -/
theorem C8_analyze_total (gAvail : Bool) (s : String) :
    (analyze gAvail s).recommended_profile ∈
      (["small", "medium", "large", "gpu"] : List String) ∧
    (analyze gAvail s).execution_mode ∈ (["cpu", "gpu"] : List String) ∧
    (isBlankStr s = true → analyze gAvail s = emptyScriptAnalysis) := by
  have hd := determine_profile_mem (detect_libraries s)
    (detect_gpu_usage s (detect_libraries s))
    (detect_memory_usage (detect_libraries s))
    (detect_compute_patterns s)
  rcases hb : isBlankStr s
  · refine ⟨?_, ?_, ?_⟩
    · unfold analyze
      rw [hb, if_neg Bool.false_ne_true]
      dsimp only
      split
      · dsimp only
        split
        · simp
        · exact hd.1
      · dsimp only
        exact hd.1
    · unfold analyze
      rw [hb, if_neg Bool.false_ne_true]
      dsimp only
      split
      · dsimp only
        simp
      · dsimp only
        exact hd.2
    · intro hc
      exact (Bool.false_ne_true hc).elim
  · have he : analyze gAvail s = emptyScriptAnalysis := by
      unfold analyze
      rw [hb]
      rfl
    exact ⟨by rw [he]; simp [emptyScriptAnalysis], by rw [he]; simp [emptyScriptAnalysis],
      fun _ => he⟩

/-- Witness for C8 at the empty script. -/
theorem C8_analyze_total_witness : analyze false "" = emptyScriptAnalysis :=
  (C8_analyze_total false "").2.2 (by decide)

theorem sendExistingGo_messages (ls : List String) (i : Nat) :
    logMessages (send_existing_logs.go ls i) =
      (ls.filter (fun l => !(isBlankStr l))).map pyRstrip := by
  induction ls generalizing i with
  | nil => rfl
  | cons a as ih =>
    rcases hb : isBlankStr a <;>
      simp [send_existing_logs.go, logMessages, hb, List.filter_cons] at ih ⊢ <;>
      exact ih (i + 1)

theorem sendExistingGo_no_complete (ls : List String) (i : Nat) :
    (send_existing_logs.go ls i).filter isCompleteEvent = [] := by
  induction ls generalizing i with
  | nil => rfl
  | cons a as ih =>
    rcases hb : isBlankStr a
    · rw [send_existing_logs.go, hb, if_neg Bool.false_ne_true, List.filter_cons]
      rw [show isCompleteEvent (WsEvent.log (pyRstrip a) (i + 1)) = false from rfl,
        if_neg Bool.false_ne_true]
      exact ih (i + 1)
    · rw [send_existing_logs.go, hb, if_pos rfl]
      exact ih (i + 1)

/-- Claim C9 (counterexample): a subscriber to a finished job does not receive
every line of the persisted log — `send_existing_logs` skips blank lines.  For
a three-line log whose second line is blank, only two log events are sent
(and the delivered messages are right-stripped). -/
theorem C9_blank_line_not_replayed :
    c9LogLines.length = 3 ∧
    ((terminalWsEvents "success" c9LogLines).filter isLogEvent).length = 2 ∧
    terminalWsEvents "success" c9LogLines =
      [.connected "success", .log "hello" 1, .log "world" 3, .complete "success"] := by
  exact ⟨by decide, by decide, by decide⟩

/-- Claim C9 (amended): a subscriber connecting to a job already in a terminal
state receives (after the `connected` confirmation) exactly the non-blank
lines of the persisted log, in order, each right-stripped, followed by exactly
one `complete` event which is the last event — no further events follow. -/
theorem C9_terminal_replay_amended (status : String) (logLines : List String)
    (_hterm : is_finished status = true) :
    logMessages (terminalWsEvents status logLines) =
      (logLines.filter (fun l => !(isBlankStr l))).map pyRstrip ∧
    (terminalWsEvents status logLines).getLast? = some (.complete status) ∧
    (terminalWsEvents status logLines).filter isCompleteEvent = [.complete status] := by
  refine ⟨?_, ?_, ?_⟩
  · simp only [terminalWsEvents, logMessages, List.filterMap_cons, List.filterMap_append]
    have hm := sendExistingGo_messages logLines 0
    simp only [logMessages] at hm
    simp [send_existing_logs, hm]
  · show (WsEvent.connected status ::
      (send_existing_logs logLines 0 ++ [WsEvent.complete status])).getLast? = _
    rw [← List.cons_append]
    exact List.getLast?_concat _
  · simp only [terminalWsEvents, List.filter_cons, List.filter_append,
      sendExistingGo_no_complete, send_existing_logs]
    simp [isCompleteEvent, sendExistingGo_no_complete]

/-- Witness for C9 (amended) at a concrete finished job and one-line log. -/
theorem C9_terminal_replay_amended_witness :
    logMessages (terminalWsEvents "success" ["a\n"]) =
      ((["a\n"] : List String).filter (fun l => !(isBlankStr l))).map pyRstrip :=
  (C9_terminal_replay_amended "success" ["a\n"] (by decide)).1

end EnsamCloud
